import Mathlib

/-!
# samlet: the SAML-to-AWS credential exchange of the Saml2Aws controller

A shallow embedding of `controllers/aws_creds.go` and `controllers/secret.go`.

* Go `string` and `[]byte` values are byte sequences and the conversions
  between them copy the bytes unchanged; both are modelled by `String`.
* A Go result pair `(*T, error)` is modelled by `Except GoError T`; the triple
  returned by `createAWSCreds` is kept as a triple.
* Calls into collaborators (Kubernetes client, saml2aws, the Go standard
  library, the AWS SDK) are fields of `World`.  Every function that calls a
  collaborator also returns the list of calls it made, in order.
* `float64` arithmetic is modelled exactly: a finite binary64 value is a
  dyadic rational and every operation rounds its exact result to the nearest
  binary64 value, ties to even.
-/

set_option maxRecDepth 10000

namespace Samlet

/-! ## Constants -/

def defaultAmazonWebservicesURN : String := "urn:amazon:webservices"

def defaultProfile : String := "saml"

def userKey : String := "username"

def passKey : String := "password"

/-! ## Data model -/

/-- Go `error` values: an error handed back by a collaborator, the error of
`saml2aws.LocateRole`, or an error wrapped by `errors.Wrap`. -/
inductive GoError where
  | lib (msg : String)
  | roleNotGranted (roleName : String)
  | wrap (cause : GoError) (msg : String)
deriving DecidableEq, Repr

deriving instance DecidableEq for Except

/-- Fields of `configreader.Config` read by the controller. -/
structure Config where
  IDPEndpoint : String
  AWSRegion : String
  SessionDuration : String
deriving DecidableEq, Repr

/-- Fields of `cfg.IDPAccount` set by `formatAccount`. -/
structure IDPAccount where
  URL : String
  Username : String
  MFA : String
  Provider : String
  SkipVerify : Bool
  Region : String
  RoleARN : String
  SessionDuration : Int
  Profile : String
  AmazonWebservicesURN : String
deriving DecidableEq, Repr

/-- The `saml2aws.AWSRole` role grant. -/
structure AWSRole where
  RoleARN : String
  PrincipalARN : String
  Name : String
deriving DecidableEq, Repr

/-- The `creds.LoginDetails` handed to the identity provider. -/
structure LoginDetails where
  Username : String
  URL : String
  Password : String
deriving DecidableEq, Repr

/-- Time zone attached to a `time.Time`. -/
inductive Location where
  | utc
  | localZone
  | fixed (name : String)
deriving DecidableEq, Repr

/-- A `time.Time`: an instant together with the zone it is displayed in. -/
structure Time where
  instant : Int
  loc : Location
deriving DecidableEq, Repr

/-- The method `Time.Local`: same instant, local zone. -/
def Time.Local (t : Time) : Time := { t with loc := Location.localZone }

/-- The `awsconfig.AWSCredentials` result. -/
structure AWSCredentials where
  AWSAccessKey : String
  AWSSecretKey : String
  AWSSessionToken : String
  AWSSecurityToken : String
  PrincipalARN : String
  Expires : Time
  Region : String
deriving DecidableEq, Repr

/-- The `aws.Config` built by `loginToStsUsingRole`; `Endpoint` is a pointer
that stays nil unless the environment overrides it. -/
structure AwsConfig where
  Region : String
  Endpoint : Option String
deriving DecidableEq, Repr

/-- An AWS SDK session, identified by a handle. -/
structure Session where
  handle : Nat
deriving DecidableEq, Repr

/-- The `sts.AssumeRoleWithSAMLInput` request. -/
structure AssumeRoleWithSAMLInput where
  PrincipalArn : String
  RoleArn : String
  SAMLAssertion : String
  DurationSeconds : Int
deriving DecidableEq, Repr

/-- The `sts.Credentials` part of a response; the string fields are pointers. -/
structure StsCredentials where
  AccessKeyId : Option String
  SecretAccessKey : Option String
  SessionToken : Option String
  Expiration : Time
deriving DecidableEq, Repr

/-- The `sts.AssumedRoleUser` part of a response. -/
structure AssumedRoleUser where
  Arn : Option String
deriving DecidableEq, Repr

/-- The `sts.AssumeRoleWithSAMLOutput` response. -/
structure AssumeRoleWithSAMLOutput where
  AssumedRoleUser : AssumedRoleUser
  Credentials : StsCredentials
deriving DecidableEq, Repr

/-- The helper `aws.StringValue`: a nil pointer reads as the empty string. -/
def stringValue : Option String → String
  | some s => s
  | none => ""

/-- A `metav1.OwnerReference`. -/
structure OwnerReference where
  Kind : String
  Name : String
  Controller : Bool
deriving DecidableEq, Repr

/-- Fields of `v1.Secret` used by the controller; `Data` is the Go map
`map[string][]byte`, kept as an association list. -/
structure Secret where
  Name : String
  Namespace : String
  OwnerReferences : List OwnerReference
  Data : List (String × String)
deriving DecidableEq, Repr

/-- The spec part of the `Saml2Aws` custom resource. -/
structure Saml2AwsSpec where
  SecretName : String
  RoleARN : String
  TargetSecretName : String
deriving DecidableEq, Repr

/-- The `samletv1.Saml2Aws` custom resource. -/
structure Saml2Aws where
  Name : String
  Namespace : String
  Spec : Saml2AwsSpec
deriving DecidableEq, Repr

/-- An identity-provider client returned by `adfs.New`. -/
structure Provider where
  account : IDPAccount
deriving DecidableEq, Repr

/-- Reading a Go map at a key: an absent key reads as the zero value, which
for `[]byte` converted to `string` is the empty string. -/
def mapIndex (m : List (String × String)) (key : String) : String :=
  match m.lookup key with
  | some v => v
  | none => ""

/-! ## Collaborators and the call log -/

/-- One call into a collaborator, with its arguments. -/
inductive Call where
  | readSecret (name ns : String)
  | parseDuration (s : String)
  | adfsNew (account : IDPAccount)
  | authenticate (provider : Provider) (loginDetails : LoginDetails)
  | decodeString (assertion : String)
  | extractAwsRoles (data : String)
  | parseAWSRoles (roles : List String)
  | locateRole (awsRoles : List AWSRole) (roleName : String)
  | lookupEnv (key : String)
  | newSession (awsConfig : AwsConfig)
  | assumeRoleWithSAML (sess : Session) (params : AssumeRoleWithSAMLInput)
deriving DecidableEq, Repr

/-- The behaviour of the collaborators during one invocation.
`parseDuration` is `time.ParseDuration` (nanoseconds), `get` is the client
lookup used by `readSecret`, `decodeString` is `base64.StdEncoding`,
`extractAwsRoles` and `parseAWSRoles` are the saml2aws helpers, `lookupEnv`
is `os.LookupEnv`, `newSession` and `assumeRoleWithSAML` are the AWS SDK.
`setControllerReference` is `controllerutil.SetControllerReference`, which
either fails or rewrites the owner references of the controlled object and
nothing else; it yields the new owner references. -/
structure World where
  parseDuration : String → Except GoError Int
  get : String → String → Except GoError Secret
  adfsNew : IDPAccount → Except GoError Provider
  authenticate : Provider → LoginDetails → Except GoError String
  decodeString : String → Except GoError String
  extractAwsRoles : String → Except GoError (List String)
  parseAWSRoles : List String → Except GoError (List AWSRole)
  lookupEnv : String → Option String
  newSession : AwsConfig → Except GoError Session
  assumeRoleWithSAML : Session → AssumeRoleWithSAMLInput → Except GoError AssumeRoleWithSAMLOutput
  setControllerReference : Saml2Aws → Secret → Except GoError (List OwnerReference)

/-- The receiver `Saml2AwsReconciler`: its configuration. -/
structure Saml2AwsReconciler where
  Config : Config

/-- A value together with the collaborator calls made to compute it. -/
structure Traced (α : Type) where
  calls : List Call
  result : α

/-! ## binary64 arithmetic -/

/-- A finite binary64 value, `mant / 2 ^ scale`. -/
structure Float64 where
  mant : Int
  scale : Nat
deriving DecidableEq, Repr

/-- Bit length minus one, by halving at most `fuel` times. -/
def log2Aux : Nat → Nat → Nat
  | 0, _ => 0
  | fuel + 1, n => if n < 2 then 0 else log2Aux fuel (n / 2) + 1

/-- The floor of the base-two logarithm of a positive natural number. -/
def natLog2 (n : Nat) : Nat := log2Aux n n

/-- The floor of the base-two logarithm of the positive rational `p / q`. -/
def floorLog2 (p q : Nat) : Int :=
  let k : Int := (natLog2 p : Int) - (natLog2 q : Int)
  if q * 2 ^ k.toNat ≤ p * 2 ^ (-k).toNat then k else k - 1

/-- The integer nearest to `p / q`, ties going to the even one. -/
def roundHalfEven (p q : Nat) : Nat :=
  let m := p / q
  let r := p % q
  if 2 * r < q then m
  else if q < 2 * r then m + 1
  else if m % 2 = 0 then m else m + 1

/-- The binary64 value nearest to the positive rational `p / q`, ties to
even: 53 significant bits, least exponent `-1074`.  Results beyond the largest
finite binary64 value are not modelled; they do not arise from the `int64`
operands of `Duration.Seconds`. -/
def roundMag (p q : Nat) : Float64 :=
  if p = 0 then ⟨0, 0⟩
  else
    let e : Int := max (floorLog2 p q - 52) (-1074)
    if 0 ≤ e then ⟨(roundHalfEven p (q * 2 ^ e.toNat) * 2 ^ e.toNat : Nat), 0⟩
    else ⟨(roundHalfEven (p * 2 ^ (-e).toNat) q : Nat), (-e).toNat⟩

/-- Negation of a binary64 value. -/
def Float64.neg (x : Float64) : Float64 := ⟨-x.mant, x.scale⟩

/-- The binary64 value nearest to the rational `n / d`, for `d` positive. -/
def roundF64 (n : Int) (d : Nat) : Float64 :=
  if n < 0 then (roundMag n.natAbs d).neg else roundMag n.natAbs d

/-- The conversion `float64(i)` of an integer. -/
def Float64.ofInt (i : Int) : Float64 := roundF64 i 1

/-- The sum `x + y` in binary64. -/
def Float64.add (x y : Float64) : Float64 :=
  roundF64 (x.mant * 2 ^ y.scale + y.mant * 2 ^ x.scale) (2 ^ (x.scale + y.scale))

/-- The quotient `x / y` in binary64, for `y` not zero. -/
def Float64.div (x y : Float64) : Float64 :=
  roundF64 (x.mant * 2 ^ y.scale * y.mant.sign) (2 ^ x.scale * y.mant.natAbs)

/-- The conversion `int(x)`: the fraction is discarded. -/
def Float64.toInt (x : Float64) : Int := x.mant.tdiv (2 ^ x.scale)

/-! ## time.Duration -/

/-- The constant `time.Second`, in nanoseconds. -/
def Second : Int := 1000000000

/-- The method `Duration.Seconds`:
`sec := d / Second; nsec := d % Second; float64(sec) + float64(nsec)/1e9`,
with Go integer division truncating toward zero. -/
def Duration.Seconds (d : Int) : Float64 :=
  let sec := d.tdiv Second
  let nsec := d.tmod Second
  (Float64.ofInt sec).add ((Float64.ofInt nsec).div (Float64.ofInt 1000000000))

/-! ## controllers/aws_creds.go -/

/-- The function `formatAccount`. -/
def formatAccount (w : World) (config : Config) (login role : String) :
    Traced (Except GoError IDPAccount) :=
  match w.parseDuration config.SessionDuration with
  | .error err => ⟨[Call.parseDuration config.SessionDuration], .error err⟩
  | .ok timeDuration =>
    ⟨[Call.parseDuration config.SessionDuration], .ok {
      URL := config.IDPEndpoint
      Username := login
      MFA := "Azure"
      Provider := "ADFS"
      SkipVerify := false
      Region := config.AWSRegion
      RoleARN := role
      SessionDuration := (Duration.Seconds timeDuration).toInt
      Profile := defaultProfile
      AmazonWebservicesURN := defaultAmazonWebservicesURN }⟩

/-- The function `loginToStsUsingRole`. -/
def loginToStsUsingRole (w : World) (account : IDPAccount) (role : AWSRole)
    (samlAssertion : String) : Traced (Except GoError AWSCredentials) :=
  let awsConfig : AwsConfig :=
    match w.lookupEnv "AWS_ENDPOINT" with
    | some awsEndpoint => { Region := account.Region, Endpoint := some awsEndpoint }
    | none => { Region := account.Region, Endpoint := none }
  match w.newSession awsConfig with
  | .error err =>
    ⟨[Call.lookupEnv "AWS_ENDPOINT", Call.newSession awsConfig],
      .error (GoError.wrap err "failed to create session")⟩
  | .ok sess =>
    let params : AssumeRoleWithSAMLInput := {
      PrincipalArn := role.PrincipalARN
      RoleArn := role.RoleARN
      SAMLAssertion := samlAssertion
      DurationSeconds := account.SessionDuration }
    match w.assumeRoleWithSAML sess params with
    | .error err =>
      ⟨[Call.lookupEnv "AWS_ENDPOINT", Call.newSession awsConfig,
          Call.assumeRoleWithSAML sess params],
        .error (GoError.wrap err "error retrieving STS credentials using SAML")⟩
    | .ok resp =>
      ⟨[Call.lookupEnv "AWS_ENDPOINT", Call.newSession awsConfig,
          Call.assumeRoleWithSAML sess params],
        .ok {
          AWSAccessKey := stringValue resp.Credentials.AccessKeyId
          AWSSecretKey := stringValue resp.Credentials.SecretAccessKey
          AWSSessionToken := stringValue resp.Credentials.SessionToken
          AWSSecurityToken := stringValue resp.Credentials.SessionToken
          PrincipalARN := stringValue resp.AssumedRoleUser.Arn
          Expires := resp.Credentials.Expiration.Local
          Region := account.Region }⟩

/-- Modelled from the spec: `saml2aws.LocateRole`, a function of the saml2aws
library that `getCredentials` calls and whose body is not part of the
repository.  It selects the role grant whose role ARN equals the desired
role ARN, fails with `RoleNotGranted` if none match, and on several matches
returns the first in the original order. -/
def LocateRole : List AWSRole → String → Except GoError AWSRole
  | [], roleName => .error (GoError.roleNotGranted roleName)
  | awsRole :: rest, roleName =>
    if awsRole.RoleARN = roleName then .ok awsRole else LocateRole rest roleName

/-- The function `getCredentials`. -/
def getCredentials (w : World) (assertion role : String) (account : IDPAccount) :
    Traced (Except GoError AWSCredentials) :=
  match w.decodeString assertion with
  | .error err => ⟨[Call.decodeString assertion], .error err⟩
  | .ok data =>
    match w.extractAwsRoles data with
    | .error err => ⟨[Call.decodeString assertion, Call.extractAwsRoles data], .error err⟩
    | .ok roles =>
      match w.parseAWSRoles roles with
      | .error err =>
        ⟨[Call.decodeString assertion, Call.extractAwsRoles data, Call.parseAWSRoles roles],
          .error err⟩
      | .ok awsRoles =>
        match LocateRole awsRoles role with
        | .error err =>
          ⟨[Call.decodeString assertion, Call.extractAwsRoles data, Call.parseAWSRoles roles,
              Call.locateRole awsRoles role], .error err⟩
        | .ok awsRole =>
          let sts := loginToStsUsingRole w account awsRole assertion
          match sts.result with
          | .error err =>
            ⟨[Call.decodeString assertion, Call.extractAwsRoles data,
                Call.parseAWSRoles roles, Call.locateRole awsRoles role] ++ sts.calls,
              .error err⟩
          | .ok awsCreds =>
            ⟨[Call.decodeString assertion, Call.extractAwsRoles data,
                Call.parseAWSRoles roles, Call.locateRole awsRoles role] ++ sts.calls,
              .ok awsCreds⟩

/-! ## controllers/secret.go -/

/-- The method `targetSecret`. -/
def targetSecret (w : World) (saml : Saml2Aws) (data : String) : Except GoError Secret :=
  let secretData : List (String × String) := [("credentials", data)]
  let secret : Secret := {
    Name := saml.Spec.TargetSecretName
    Namespace := saml.Namespace
    OwnerReferences := []
    Data := secretData }
  match w.setControllerReference saml secret with
  | .error err => .error err
  | .ok refs => .ok { secret with OwnerReferences := refs }

/-- The function `getLoginData`. -/
def getLoginData (secret : Secret) : String × String :=
  let user := mapIndex secret.Data userKey
  let pass := mapIndex secret.Data passKey
  (user, pass)

/-- The method `readSecret`. -/
def readSecret (w : World) (name ns : String) : Traced (Except GoError Secret) :=
  match w.get name ns with
  | .error err => ⟨[Call.readSecret name ns], .error err⟩
  | .ok loginSecret => ⟨[Call.readSecret name ns], .ok loginSecret⟩

/-! ## The orchestrator -/

/-- The method `createAWSCreds`; the result is the Go triple
`(credentials, profile, error)`. -/
def createAWSCreds (w : World) (r : Saml2AwsReconciler) (saml : Saml2Aws) :
    Traced (Option AWSCredentials × String × Option GoError) :=
  let rd := readSecret w saml.Spec.SecretName saml.Namespace
  match rd.result with
  | .error err => ⟨rd.calls, (none, "", some err)⟩
  | .ok loginSecret =>
    let (user, password) := getLoginData loginSecret
    let fa := formatAccount w r.Config user saml.Spec.RoleARN
    match fa.result with
    | .error err => ⟨rd.calls ++ fa.calls, (none, "", some err)⟩
    | .ok account =>
      match w.adfsNew account with
      | .error err => ⟨rd.calls ++ fa.calls ++ [Call.adfsNew account], (none, "", some err)⟩
      | .ok provider =>
        let loginDetails : LoginDetails := {
          Username := account.Username
          URL := account.URL
          Password := password }
        match w.authenticate provider loginDetails with
        | .error err =>
          ⟨rd.calls ++ fa.calls ++ [Call.adfsNew account,
              Call.authenticate provider loginDetails], (none, "", some err)⟩
        | .ok samlAssertion =>
          let gc := getCredentials w samlAssertion account.RoleARN account
          match gc.result with
          | .error err =>
            ⟨rd.calls ++ fa.calls ++ [Call.adfsNew account,
                Call.authenticate provider loginDetails] ++ gc.calls, (none, "", some err)⟩
          | .ok awsCreds =>
            ⟨rd.calls ++ fa.calls ++ [Call.adfsNew account,
                Call.authenticate provider loginDetails] ++ gc.calls,
              (some awsCreds, account.Profile, none)⟩

/-! ## Reading the call log -/

/-- Whether a logged call is the STS exchange. -/
def Call.isStsExchange : Call → Bool
  | .assumeRoleWithSAML _ _ => true
  | _ => false

/-- Whether a logged call is the authentication against the identity provider. -/
def Call.isAuthenticate : Call → Bool
  | .authenticate _ _ => true
  | _ => false

/-- Whether a logged call belongs to what follows the decoding of the
assertion: role extraction, role parsing, role location, or the STS login. -/
def Call.isAfterDecode : Call → Bool
  | .extractAwsRoles _ => true
  | .parseAWSRoles _ => true
  | .locateRole _ _ => true
  | .lookupEnv _ => true
  | .newSession _ => true
  | .assumeRoleWithSAML _ _ => true
  | _ => false

/-! ## Sample inputs -/

def devRole : AWSRole :=
  { RoleARN := "arn:aws:iam::111:role/Dev", PrincipalARN := "arn:aws:iam::111:saml-provider/adfs",
    Name := "" }

def grantA : AWSRole := { RoleARN := "A", PrincipalARN := "P1", Name := "" }

def grantB : AWSRole := { RoleARN := "B", PrincipalARN := "P2", Name := "" }

def grantA2 : AWSRole := { RoleARN := "A", PrincipalARN := "P3", Name := "" }

def sampleConfig : Config :=
  { IDPEndpoint := "https://idp.example", AWSRegion := "eu-west-1", SessionDuration := "1h" }

def sampleReconciler : Saml2AwsReconciler := { Config := sampleConfig }

def sampleSaml : Saml2Aws :=
  { Name := "dev", Namespace := "default",
    Spec := { SecretName := "login", RoleARN := "arn:aws:iam::111:role/Dev",
              TargetSecretName := "aws-creds" } }

def sampleLoginSecret : Secret :=
  { Name := "login", Namespace := "default", OwnerReferences := [],
    Data := [("username", "alice"), ("password", "s3cret")] }

def sampleResponse : AssumeRoleWithSAMLOutput :=
  { AssumedRoleUser := { Arn := some "arn:aws:sts::111:assumed-role/Dev/alice" },
    Credentials := { AccessKeyId := some "AK1", SecretAccessKey := some "SK1",
                     SessionToken := some "TOK1",
                     Expiration := { instant := 1700000000, loc := Location.utc } } }

/-- A world in which every collaborator succeeds: the duration `1h` parses,
the login secret exists, and the assertion grants `devRole`. -/
def sampleWorld : World where
  parseDuration s :=
    if s = "1h" then .ok 3600000000000
    else if s = "1500ms" then .ok 1500000000
    else .error (GoError.lib "time: invalid duration")
  get name ns :=
    if name = "login" ∧ ns = "default" then .ok sampleLoginSecret
    else .error (GoError.lib "secret not found")
  adfsNew account := .ok { account := account }
  authenticate _ _ := .ok "QVNTRVJUSU9O"
  decodeString s :=
    if s = "QVNTRVJUSU9O" then .ok "ASSERTION"
    else .error (GoError.lib "illegal base64 data")
  extractAwsRoles _ := .ok ["arn:aws:iam::111:saml-provider/adfs,arn:aws:iam::111:role/Dev"]
  parseAWSRoles _ := .ok [devRole]
  lookupEnv _ := none
  newSession _ := .ok { handle := 0 }
  assumeRoleWithSAML _ _ := .ok sampleResponse
  setControllerReference saml _ :=
    .ok [{ Kind := "Saml2Aws", Name := saml.Name, Controller := true }]

/-- The sample world with an assertion that grants `A` and `B`. -/
def twoGrantWorld : World := { sampleWorld with parseAWSRoles := fun _ => .ok [grantA, grantB] }

/-- The sample world with an assertion that grants `A` twice. -/
def duplicateGrantWorld : World :=
  { sampleWorld with parseAWSRoles := fun _ => .ok [grantA, grantB, grantA2] }

/-- The sample world with a login secret that has no `password` key. -/
def noPasswordWorld : World :=
  { sampleWorld with
    get := fun _ _ =>
      .ok { Name := "login", Namespace := "default", OwnerReferences := [],
            Data := [("username", "alice")] } }

/-- The sample world with a login secret that has no `username` key. -/
def noUsernameWorld : World :=
  { sampleWorld with
    get := fun _ _ =>
      .ok { Name := "login", Namespace := "default", OwnerReferences := [],
            Data := [("password", "s3cret")] } }

/-- The sample world whose host platform cannot attach owner references. -/
def noSchemeWorld : World :=
  { sampleWorld with
    setControllerReference := fun _ _ => .error (GoError.lib "no kind is registered") }

/-- The sample world extended with a duration of `2 ^ 24` seconds and
`999999999` nanoseconds, written in nanoseconds. -/
def longDurationWorld : World :=
  { sampleWorld with
    parseDuration := fun s =>
      if s = "16777216999999999ns" then .ok 16777216999999999
      else sampleWorld.parseDuration s }

def longDurationConfig : Config :=
  { sampleConfig with SessionDuration := "16777216999999999ns" }

def millisConfig : Config := { sampleConfig with SessionDuration := "1500ms" }

def bogusReconciler : Saml2AwsReconciler :=
  { Config := { sampleConfig with SessionDuration := "bogus" } }

def sampleAccount : IDPAccount :=
  { URL := "https://idp.example", Username := "alice", MFA := "Azure", Provider := "ADFS",
    SkipVerify := false, Region := "eu-west-1", RoleARN := "arn:aws:iam::111:role/Dev",
    SessionDuration := 3600, Profile := "saml", AmazonWebservicesURN := "urn:amazon:webservices" }


/-! ## Predicates used in the statements -/

/-- The grant `g` is the first match: it occurs in `awsRoles`, has role ARN
`role`, and no earlier entry of `awsRoles` has role ARN `role`. -/
def FirstMatch (awsRoles : List AWSRole) (role : String) (g : AWSRole) : Prop :=
  ∃ before after, awsRoles = before ++ g :: after ∧ g.RoleARN = role ∧
    ∀ x ∈ before, x.RoleARN ≠ role

/-- The grants of `awsRoles` whose role ARN is `role`, in their original order. -/
def matchingGrants (awsRoles : List AWSRole) (role : String) : List AWSRole :=
  awsRoles.filter (fun g => g.RoleARN = role)

theorem locateRole_ok_iff (awsRoles : List AWSRole) (role : String) (g : AWSRole) :
    LocateRole awsRoles role = .ok g ↔ FirstMatch awsRoles role g := by
  induction awsRoles with
  | nil =>
    constructor
    · intro h; simp [LocateRole] at h
    · rintro ⟨before, after, h, -, -⟩; simp at h
  | cons a rest ih =>
    by_cases ha : a.RoleARN = role
    · simp only [LocateRole, ha, if_true]
      constructor
      · intro h
        have hg : a = g := by injection h
        subst hg
        exact ⟨[], rest, rfl, ha, by simp⟩
      · rintro ⟨before, after, h, hg, hb⟩
        cases before with
        | nil =>
          simp only [List.nil_append, List.cons.injEq] at h
          rw [h.1]
        | cons b bs =>
          simp only [List.cons_append, List.cons.injEq] at h
          exact absurd (h.1 ▸ ha) (hb b (by simp))
    · simp only [LocateRole, ha, if_false]
      rw [ih]
      constructor
      · rintro ⟨before, after, h, hg, hb⟩
        refine ⟨a :: before, after, by simp [h], hg, ?_⟩
        intro x hx
        rcases List.mem_cons.1 hx with rfl | hx
        · exact ha
        · exact hb x hx
      · rintro ⟨before, after, h, hg, hb⟩
        cases before with
        | nil =>
          simp only [List.nil_append, List.cons.injEq] at h
          exact absurd (h.1 ▸ hg) ha
        | cons b bs =>
          simp only [List.cons_append, List.cons.injEq] at h
          exact ⟨bs, after, h.2, hg, fun x hx => hb x (by simp [hx])⟩

theorem locateRole_error_iff (awsRoles : List AWSRole) (role : String) :
    LocateRole awsRoles role = .error (GoError.roleNotGranted role) ↔
      ∀ g ∈ awsRoles, g.RoleARN ≠ role := by
  induction awsRoles with
  | nil => simp [LocateRole]
  | cons a rest ih =>
    by_cases ha : a.RoleARN = role
    · simp [LocateRole, ha]
    · simp [LocateRole, ha, ih]

theorem locateRole_error_eq (awsRoles : List AWSRole) (role : String) (e : GoError)
    (h : LocateRole awsRoles role = .error e) : e = GoError.roleNotGranted role := by
  induction awsRoles with
  | nil => simp [LocateRole] at h; exact h.symm
  | cons a rest ih =>
    by_cases ha : a.RoleARN = role
    · simp [LocateRole, ha] at h
    · simp only [LocateRole, ha, if_false] at h
      exact ih h

/-- What `getCredentials` does once the assertion has been decoded and its
role entries extracted and parsed. -/
theorem getCredentials_parsed (w : World) (assertion role : String) (account : IDPAccount)
    (data : String) (roles : List String) (awsRoles : List AWSRole)
    (hd : w.decodeString assertion = .ok data)
    (he : w.extractAwsRoles data = .ok roles)
    (hp : w.parseAWSRoles roles = .ok awsRoles) :
    getCredentials w assertion role account =
      match LocateRole awsRoles role with
      | .error err =>
        ⟨[Call.decodeString assertion, Call.extractAwsRoles data, Call.parseAWSRoles roles,
            Call.locateRole awsRoles role], .error err⟩
      | .ok awsRole =>
        ⟨[Call.decodeString assertion, Call.extractAwsRoles data, Call.parseAWSRoles roles,
            Call.locateRole awsRoles role] ++
            (loginToStsUsingRole w account awsRole assertion).calls,
          (loginToStsUsingRole w account awsRole assertion).result⟩ := by
  simp only [getCredentials, hd, he, hp]
  cases hl : LocateRole awsRoles role with
  | error err => rfl
  | ok awsRole =>
    simp only
    cases hs : (loginToStsUsingRole w account awsRole assertion).result <;> rfl

/-- C1: role resolution returns the first grant, in original list order,
whose role ARN equals the desired ARN; it fails with `roleNotGranted` exactly
when no grant has that role ARN, and then `getCredentials` returns that error
without attempting the STS exchange; when a grant is located, the outcome of
`getCredentials` is the outcome of the STS login with that grant. -/
theorem getCredentials_locates_first_grant (w : World) (assertion role : String)
    (account : IDPAccount) (data : String) (roles : List String) (awsRoles : List AWSRole)
    (hd : w.decodeString assertion = .ok data)
    (he : w.extractAwsRoles data = .ok roles)
    (hp : w.parseAWSRoles roles = .ok awsRoles) :
    (∀ g, LocateRole awsRoles role = .ok g ↔ FirstMatch awsRoles role g) ∧
    ((∃ e, LocateRole awsRoles role = .error e) ↔ ∀ g ∈ awsRoles, g.RoleARN ≠ role) ∧
    ((∀ g ∈ awsRoles, g.RoleARN ≠ role) →
      (getCredentials w assertion role account).result =
          .error (GoError.roleNotGranted role) ∧
        ∀ c ∈ (getCredentials w assertion role account).calls, c.isStsExchange = false) ∧
    (∀ g, FirstMatch awsRoles role g →
      (getCredentials w assertion role account).result =
        (loginToStsUsingRole w account g assertion).result) := by
  refine ⟨locateRole_ok_iff awsRoles role, ⟨?_, ?_⟩, ?_, ?_⟩
  · rintro ⟨e, h⟩
    have := locateRole_error_eq awsRoles role e h
    subst this
    exact (locateRole_error_iff awsRoles role).1 h
  · intro h
    exact ⟨_, (locateRole_error_iff awsRoles role).2 h⟩
  · intro h
    have hl := (locateRole_error_iff awsRoles role).2 h
    rw [getCredentials_parsed w assertion role account data roles awsRoles hd he hp, hl]
    refine ⟨rfl, ?_⟩
    intro c hc
    simp only [List.mem_cons, List.mem_singleton, List.not_mem_nil, or_false] at hc
    rcases hc with rfl | rfl | rfl | rfl <;> rfl
  · intro g hg
    have hl := (locateRole_ok_iff awsRoles role g).2 hg
    rw [getCredentials_parsed w assertion role account data roles awsRoles hd he hp, hl]

/-- C1, sample: with grants `A` (principal `P1`) and `B` (principal `P2`),
resolving `A` yields the grant with principal `P1` and resolving `C` fails. -/
theorem getCredentials_locates_first_grant_witness :
    (LocateRole [grantA, grantB] "A" = .ok grantA ∧ grantA.PrincipalARN = "P1") ∧
    (getCredentials twoGrantWorld "QVNTRVJUSU9O" "C" sampleAccount).result =
      .error (GoError.roleNotGranted "C") :=
  ⟨⟨((getCredentials_locates_first_grant twoGrantWorld "QVNTRVJUSU9O" "A" sampleAccount
        "ASSERTION" ["arn:aws:iam::111:saml-provider/adfs,arn:aws:iam::111:role/Dev"]
        [grantA, grantB] (by decide) rfl rfl).1 grantA).2
        ⟨[], [grantB], rfl, rfl, by simp⟩, rfl⟩,
    ((getCredentials_locates_first_grant twoGrantWorld "QVNTRVJUSU9O" "C" sampleAccount
        "ASSERTION" ["arn:aws:iam::111:saml-provider/adfs,arn:aws:iam::111:role/Dev"]
        [grantA, grantB] (by decide) rfl rfl).2.2.1 (by decide)).1⟩

/-- The grants matching `role` are the located grant followed by the later
matches: `LocateRole` succeeds exactly when the list of matches is not empty
and returns its head. -/
theorem locateRole_eq_head (awsRoles : List AWSRole) (role : String) :
    LocateRole awsRoles role =
      match matchingGrants awsRoles role with
      | [] => .error (GoError.roleNotGranted role)
      | g :: _ => .ok g := by
  induction awsRoles with
  | nil => rfl
  | cons a rest ih =>
    by_cases ha : a.RoleARN = role
    · simp [LocateRole, matchingGrants, ha]
    · simp only [LocateRole, ha, if_false, ih, matchingGrants, List.filter_cons,
        decide_False, Bool.false_eq_true]

/-- C7, as the code behaves: role resolution fails exactly when no grant has
the desired role ARN; whenever one or more grants match, also more than one,
it succeeds with the first match and `getCredentials` goes on to the STS
login with that grant. -/
theorem getCredentials_any_match_count (w : World) (assertion role : String)
    (account : IDPAccount) (data : String) (roles : List String) (awsRoles : List AWSRole)
    (hd : w.decodeString assertion = .ok data)
    (he : w.extractAwsRoles data = .ok roles)
    (hp : w.parseAWSRoles roles = .ok awsRoles) :
    ((matchingGrants awsRoles role).length = 0 →
      (getCredentials w assertion role account).result =
        .error (GoError.roleNotGranted role)) ∧
    (∀ g others, matchingGrants awsRoles role = g :: others →
      LocateRole awsRoles role = .ok g ∧
      (getCredentials w assertion role account).result =
        (loginToStsUsingRole w account g assertion).result ∧
      (getCredentials w assertion role account).calls =
        [Call.decodeString assertion, Call.extractAwsRoles data, Call.parseAWSRoles roles,
          Call.locateRole awsRoles role] ++
          (loginToStsUsingRole w account g assertion).calls) := by
  have hg := getCredentials_parsed w assertion role account data roles awsRoles hd he hp
  have hl := locateRole_eq_head awsRoles role
  constructor
  · intro h0
    have : matchingGrants awsRoles role = [] := List.length_eq_zero.1 h0
    rw [this] at hl
    rw [hg, hl]
  · intro g others hm
    rw [hm] at hl
    simp only at hl
    rw [hg, hl]
    exact ⟨rfl, rfl, rfl⟩

/-- C7, sample: with the grants `A`, `B`, `A` two grants match `A`, and the
STS login runs with the first of them. -/
theorem getCredentials_any_match_count_witness :
    LocateRole [grantA, grantB, grantA2] "A" = .ok grantA ∧
    (getCredentials duplicateGrantWorld "QVNTRVJUSU9O" "A" sampleAccount).result =
      (loginToStsUsingRole duplicateGrantWorld sampleAccount grantA "QVNTRVJUSU9O").result :=
  ⟨((getCredentials_any_match_count duplicateGrantWorld "QVNTRVJUSU9O" "A" sampleAccount
      "ASSERTION" ["arn:aws:iam::111:saml-provider/adfs,arn:aws:iam::111:role/Dev"]
      [grantA, grantB, grantA2] (by decide) rfl rfl).2 grantA [grantA2] (by decide)).1,
   ((getCredentials_any_match_count duplicateGrantWorld "QVNTRVJUSU9O" "A" sampleAccount
      "ASSERTION" ["arn:aws:iam::111:saml-provider/adfs,arn:aws:iam::111:role/Dev"]
      [grantA, grantB, grantA2] (by decide) rfl rfl).2 grantA [grantA2] (by decide)).2.1⟩

/-- C7, refuted as stated: two grants of the assertion have the desired role
ARN `A`, and yet `getCredentials` returns credentials and no error. -/
theorem getCredentials_duplicate_grants_succeed :
    (matchingGrants [grantA, grantB, grantA2] "A").length = 2 ∧
    duplicateGrantWorld.parseAWSRoles
        ["arn:aws:iam::111:saml-provider/adfs,arn:aws:iam::111:role/Dev"] =
      .ok [grantA, grantB, grantA2] ∧
    (getCredentials duplicateGrantWorld "QVNTRVJUSU9O" "A" sampleAccount).result =
      .ok { AWSAccessKey := "AK1", AWSSecretKey := "SK1", AWSSessionToken := "TOK1",
            AWSSecurityToken := "TOK1",
            PrincipalARN := "arn:aws:sts::111:assumed-role/Dev/alice",
            Expires := { instant := 1700000000, loc := Location.localZone },
            Region := "eu-west-1" } ∧
    Call.assumeRoleWithSAML { handle := 0 }
        { PrincipalArn := "P1", RoleArn := "A", SAMLAssertion := "QVNTRVJUSU9O",
          DurationSeconds := 3600 } ∈
      (getCredentials duplicateGrantWorld "QVNTRVJUSU9O" "A" sampleAccount).calls := by
  refine ⟨by decide, rfl, by decide, by decide⟩

/-- C5: when the assertion is not valid base64 (the decoder returns an error),
`getCredentials` returns that error and no credentials, and the decoder is the
only collaborator called: role extraction, role parsing, role location and
the STS login are not invoked. -/
theorem getCredentials_bad_base64 (w : World) (assertion role : String)
    (account : IDPAccount) (e : GoError)
    (hd : w.decodeString assertion = .error e) :
    (getCredentials w assertion role account).result = .error e ∧
    (getCredentials w assertion role account).calls = [Call.decodeString assertion] ∧
    ∀ c ∈ (getCredentials w assertion role account).calls, c.isAfterDecode = false := by
  have h : getCredentials w assertion role account =
      ⟨[Call.decodeString assertion], .error e⟩ := by
    simp only [getCredentials, hd]
  rw [h]
  refine ⟨rfl, rfl, ?_⟩
  intro c hc
  rw [List.mem_singleton.1 hc]
  rfl

/-- C5, sample: the string `not base64!` is rejected by the decoder. -/
theorem getCredentials_bad_base64_witness :
    (getCredentials sampleWorld "not base64!" "A" sampleAccount).result =
      .error (GoError.lib "illegal base64 data") ∧
    (getCredentials sampleWorld "not base64!" "A" sampleAccount).calls =
      [Call.decodeString "not base64!"] :=
  ⟨(getCredentials_bad_base64 sampleWorld "not base64!" "A" sampleAccount
      (GoError.lib "illegal base64 data") (by decide)).1,
   (getCredentials_bad_base64 sampleWorld "not base64!" "A" sampleAccount
      (GoError.lib "illegal base64 data") (by decide)).2.1⟩

/-- C6: when the session is created and STS answers with access key `AK`,
secret key `SK`, session token `TOK` and assumed-role ARN `R`, the credential
returned by `loginToStsUsingRole` has both token fields equal to `TOK`, the
keys `AK` and `SK`, principal `R`, the expiry in local time, and the region of
the account descriptor. -/
theorem loginToStsUsingRole_fields (w : World) (account : IDPAccount) (role : AWSRole)
    (samlAssertion : String) (sess : Session) (resp : AssumeRoleWithSAMLOutput)
    (AK SK TOK R : String)
    (hs : w.newSession { Region := account.Region, Endpoint := w.lookupEnv "AWS_ENDPOINT" } =
      .ok sess)
    (hr : w.assumeRoleWithSAML sess
        { PrincipalArn := role.PrincipalARN, RoleArn := role.RoleARN,
          SAMLAssertion := samlAssertion, DurationSeconds := account.SessionDuration } =
      .ok resp)
    (hAK : resp.Credentials.AccessKeyId = some AK)
    (hSK : resp.Credentials.SecretAccessKey = some SK)
    (hTOK : resp.Credentials.SessionToken = some TOK)
    (hR : resp.AssumedRoleUser.Arn = some R) :
    ∃ creds, (loginToStsUsingRole w account role samlAssertion).result = .ok creds ∧
      creds.AWSSessionToken = TOK ∧ creds.AWSSecurityToken = TOK ∧
      creds.AWSAccessKey = AK ∧ creds.AWSSecretKey = SK ∧ creds.PrincipalARN = R ∧
      creds.Expires = resp.Credentials.Expiration.Local ∧
      creds.Region = account.Region := by
  have hcfg : (match w.lookupEnv "AWS_ENDPOINT" with
      | some awsEndpoint => ({ Region := account.Region, Endpoint := some awsEndpoint } : AwsConfig)
      | none => { Region := account.Region, Endpoint := none }) =
      { Region := account.Region, Endpoint := w.lookupEnv "AWS_ENDPOINT" } := by
    cases w.lookupEnv "AWS_ENDPOINT" <;> rfl
  simp only [loginToStsUsingRole, hcfg, hs, hr, hAK, hSK, hTOK, hR, stringValue]
  exact ⟨_, rfl, rfl, rfl, rfl, rfl, rfl, rfl, rfl⟩

/-- C6, sample: the response with `AK1`, `SK1`, `TOK1`. -/
theorem loginToStsUsingRole_fields_witness :
    ∃ creds, (loginToStsUsingRole sampleWorld sampleAccount devRole "QVNTRVJUSU9O").result =
        .ok creds ∧
      creds.AWSSessionToken = "TOK1" ∧ creds.AWSSecurityToken = "TOK1" ∧
      creds.AWSAccessKey = "AK1" ∧ creds.AWSSecretKey = "SK1" ∧
      creds.PrincipalARN = "arn:aws:sts::111:assumed-role/Dev/alice" ∧
      creds.Expires = sampleResponse.Credentials.Expiration.Local ∧
      creds.Region = sampleAccount.Region :=
  loginToStsUsingRole_fields sampleWorld sampleAccount devRole "QVNTRVJUSU9O"
    { handle := 0 } sampleResponse "AK1" "SK1" "TOK1"
    "arn:aws:sts::111:assumed-role/Dev/alice" rfl rfl rfl rfl rfl rfl

/-- C4: when the session-duration string cannot be parsed, `formatAccount`
returns the parse error and no descriptor; when it parses, `formatAccount`
returns a descriptor and no error. -/
theorem formatAccount_error_iff_unparseable (w : World) (config : Config)
    (login role : String) :
    (∀ e, w.parseDuration config.SessionDuration = .error e →
      (formatAccount w config login role).result = .error e) ∧
    (∀ d, w.parseDuration config.SessionDuration = .ok d →
      ∃ account, (formatAccount w config login role).result = .ok account) := by
  constructor
  · intro e h
    simp only [formatAccount, h]
  · intro d h
    simp only [formatAccount, h]
    exact ⟨_, rfl⟩

/-- C4, sample: `bogus` yields an error, `1h` yields a descriptor. -/
theorem formatAccount_error_iff_unparseable_witness :
    (formatAccount sampleWorld bogusReconciler.Config "alice" "A").result =
      .error (GoError.lib "time: invalid duration") ∧
    ∃ account, (formatAccount sampleWorld sampleConfig "alice" "A").result = .ok account :=
  ⟨(formatAccount_error_iff_unparseable sampleWorld bogusReconciler.Config "alice" "A").1
      (GoError.lib "time: invalid duration") (by decide),
   (formatAccount_error_iff_unparseable sampleWorld sampleConfig "alice" "A").2
      3600000000000 (by decide)⟩

/-- C8: when the owner reference can be attached, `targetSecret` returns a
secret named after the target secret of the request, in the namespace of the
request, whose data map has the single key `credentials` holding the payload
unchanged, and whose owner references are the attached ones; when it cannot
be attached, `targetSecret` returns the error and no secret. -/
theorem targetSecret_shape (w : World) (saml : Saml2Aws) (data : String) :
    (∀ refs,
      w.setControllerReference saml
          { Name := saml.Spec.TargetSecretName, Namespace := saml.Namespace,
            OwnerReferences := [], Data := [("credentials", data)] } = .ok refs →
      ∃ secret, targetSecret w saml data = .ok secret ∧
        secret.Name = saml.Spec.TargetSecretName ∧
        secret.Namespace = saml.Namespace ∧
        secret.Data = [("credentials", data)] ∧
        secret.Data.map Prod.fst = ["credentials"] ∧
        mapIndex secret.Data "credentials" = data ∧
        secret.OwnerReferences = refs) ∧
    (∀ e,
      w.setControllerReference saml
          { Name := saml.Spec.TargetSecretName, Namespace := saml.Namespace,
            OwnerReferences := [], Data := [("credentials", data)] } = .error e →
      targetSecret w saml data = .error e) := by
  constructor
  · intro refs h
    simp only [targetSecret, h]
    refine ⟨_, rfl, rfl, rfl, rfl, rfl, ?_, rfl⟩
    simp [mapIndex, List.lookup]
  · intro e h
    simp only [targetSecret, h]

/-- C8, sample: the secret built for the sample request, and the failure when
the platform cannot attach the owner. -/
theorem targetSecret_shape_witness :
    (∃ secret, targetSecret sampleWorld sampleSaml "payload" = .ok secret ∧
        secret.Name = "aws-creds" ∧ secret.Namespace = "default" ∧
        secret.Data = [("credentials", "payload")] ∧
        secret.Data.map Prod.fst = ["credentials"] ∧
        mapIndex secret.Data "credentials" = "payload" ∧
        secret.OwnerReferences = [{ Kind := "Saml2Aws", Name := "dev", Controller := true }]) ∧
    targetSecret noSchemeWorld sampleSaml "payload" =
      .error (GoError.lib "no kind is registered") :=
  ⟨(targetSecret_shape sampleWorld sampleSaml "payload").1 _ rfl,
   (targetSecret_shape noSchemeWorld sampleSaml "payload").2 _ rfl⟩

theorem formatAccount_error (w : World) (config : Config) (login role : String) (e : GoError)
    (h : (formatAccount w config login role).result = .error e) :
    w.parseDuration config.SessionDuration = .error e := by
  simp only [formatAccount] at h
  split at h
  next err herr => simp only [Except.error.injEq] at h; rw [herr, h]
  next d hd => simp at h

theorem formatAccount_ok (w : World) (config : Config) (login role : String)
    (account : IDPAccount) (h : (formatAccount w config login role).result = .ok account) :
    (∃ d, w.parseDuration config.SessionDuration = .ok d) ∧ account.Profile = "saml" := by
  simp only [formatAccount] at h
  split at h
  next err herr => simp at h
  next d hd =>
    simp only [Except.ok.injEq] at h
    rw [← h]
    exact ⟨⟨d, hd⟩, rfl⟩

/-- Unfolding of `createAWSCreds` when the login secret cannot be read. -/
theorem createAWSCreds_get_error (w : World) (r : Saml2AwsReconciler) (saml : Saml2Aws)
    (e : GoError) (hget : w.get saml.Spec.SecretName saml.Namespace = .error e) :
    createAWSCreds w r saml =
      ⟨[Call.readSecret saml.Spec.SecretName saml.Namespace], (none, "", some e)⟩ := by
  simp only [createAWSCreds, readSecret, hget]

/-- Unfolding of `createAWSCreds` when the session duration does not parse. -/
theorem createAWSCreds_duration_error (w : World) (r : Saml2AwsReconciler) (saml : Saml2Aws)
    (loginSecret : Secret) (e : GoError)
    (hget : w.get saml.Spec.SecretName saml.Namespace = .ok loginSecret)
    (hdur : w.parseDuration r.Config.SessionDuration = .error e) :
    createAWSCreds w r saml =
      ⟨[Call.readSecret saml.Spec.SecretName saml.Namespace,
          Call.parseDuration r.Config.SessionDuration], (none, "", some e)⟩ := by
  simp only [createAWSCreds, readSecret, hget, getLoginData, formatAccount, hdur,
    List.singleton_append]

/-- Unfolding of `createAWSCreds` when the provider cannot be constructed. -/
theorem createAWSCreds_adfs_error (w : World) (r : Saml2AwsReconciler) (saml : Saml2Aws)
    (loginSecret : Secret) (account : IDPAccount) (e : GoError)
    (hget : w.get saml.Spec.SecretName saml.Namespace = .ok loginSecret)
    (hfa : (formatAccount w r.Config (mapIndex loginSecret.Data userKey)
      saml.Spec.RoleARN).result = .ok account)
    (hnew : w.adfsNew account = .error e) :
    createAWSCreds w r saml =
      ⟨[Call.readSecret saml.Spec.SecretName saml.Namespace,
          Call.parseDuration r.Config.SessionDuration, Call.adfsNew account],
        (none, "", some e)⟩ := by
  have hc : (formatAccount w r.Config (mapIndex loginSecret.Data userKey)
      saml.Spec.RoleARN).calls = [Call.parseDuration r.Config.SessionDuration] := by
    simp only [formatAccount]; split <;> rfl
  simp only [createAWSCreds, readSecret, hget, getLoginData, hfa, hc, hnew,
    List.singleton_append, List.cons_append, List.nil_append]

/-- Unfolding of `createAWSCreds` when the provider is constructed. -/
theorem createAWSCreds_provider (w : World) (r : Saml2AwsReconciler) (saml : Saml2Aws)
    (loginSecret : Secret) (account : IDPAccount) (provider : Provider)
    (hget : w.get saml.Spec.SecretName saml.Namespace = .ok loginSecret)
    (hfa : (formatAccount w r.Config (mapIndex loginSecret.Data userKey)
      saml.Spec.RoleARN).result = .ok account)
    (hnew : w.adfsNew account = .ok provider) :
    createAWSCreds w r saml =
      match w.authenticate provider
          { Username := account.Username, URL := account.URL,
            Password := mapIndex loginSecret.Data passKey } with
      | .error err =>
        ⟨[Call.readSecret saml.Spec.SecretName saml.Namespace,
            Call.parseDuration r.Config.SessionDuration, Call.adfsNew account,
            Call.authenticate provider
              { Username := account.Username, URL := account.URL,
                Password := mapIndex loginSecret.Data passKey }], (none, "", some err)⟩
      | .ok samlAssertion =>
        ⟨[Call.readSecret saml.Spec.SecretName saml.Namespace,
            Call.parseDuration r.Config.SessionDuration, Call.adfsNew account,
            Call.authenticate provider
              { Username := account.Username, URL := account.URL,
                Password := mapIndex loginSecret.Data passKey }] ++
            (getCredentials w samlAssertion account.RoleARN account).calls,
          match (getCredentials w samlAssertion account.RoleARN account).result with
          | .error err => (none, "", some err)
          | .ok awsCreds => (some awsCreds, account.Profile, none)⟩ := by
  have hc : (formatAccount w r.Config (mapIndex loginSecret.Data userKey)
      saml.Spec.RoleARN).calls = [Call.parseDuration r.Config.SessionDuration] := by
    simp only [formatAccount]; split <;> rfl
  simp only [createAWSCreds, readSecret, hget, getLoginData, hfa, hc, hnew,
    List.singleton_append, List.cons_append, List.nil_append]
  cases w.authenticate provider
      { Username := account.Username, URL := account.URL,
        Password := mapIndex loginSecret.Data passKey } with
  | error err => rfl
  | ok samlAssertion =>
    simp only
    cases (getCredentials w samlAssertion account.RoleARN account).result <;> rfl

/-- C2, as the code behaves: a `username` or `password` key missing from the
login secret reads as the empty string, and `createAWSCreds` raises no error
of its own for it.  Once the secret is read, `createAWSCreds` builds the
descriptor from the user name so read; if that fails it returns the parse
error; otherwise it calls the provider constructor with that descriptor (its
user name is empty when the key is missing), returns the error of the
constructor if it fails, and otherwise calls the authenticator with the user
name of the descriptor and the password so read (empty when the key is
missing).  The result is then the error of the authenticator, or whatever
`getCredentials` yields for the assertion, exactly as for any other
password. -/
theorem createAWSCreds_missing_login_field (w : World) (r : Saml2AwsReconciler)
    (saml : Saml2Aws) (loginSecret : Secret)
    (hget : w.get saml.Spec.SecretName saml.Namespace = .ok loginSecret) :
    (loginSecret.Data.lookup userKey = none → (getLoginData loginSecret).1 = "") ∧
    (loginSecret.Data.lookup passKey = none → (getLoginData loginSecret).2 = "") ∧
    (∀ e, (formatAccount w r.Config (getLoginData loginSecret).1 saml.Spec.RoleARN).result =
        .error e →
      (createAWSCreds w r saml).result = (none, "", some e)) ∧
    (∀ account,
      (formatAccount w r.Config (getLoginData loginSecret).1 saml.Spec.RoleARN).result =
        .ok account →
      account.Username = (getLoginData loginSecret).1 ∧
      (loginSecret.Data.lookup userKey = none → account.Username = "") ∧
      Call.adfsNew account ∈ (createAWSCreds w r saml).calls ∧
      (∀ e, w.adfsNew account = .error e →
        (createAWSCreds w r saml).result = (none, "", some e)) ∧
      (∀ provider, w.adfsNew account = .ok provider →
        Call.authenticate provider
            { Username := account.Username, URL := account.URL,
              Password := (getLoginData loginSecret).2 } ∈
          (createAWSCreds w r saml).calls ∧
        (loginSecret.Data.lookup passKey = none →
          Call.authenticate provider
              { Username := account.Username, URL := account.URL, Password := "" } ∈
            (createAWSCreds w r saml).calls) ∧
        (∀ e, w.authenticate provider
              { Username := account.Username, URL := account.URL,
                Password := (getLoginData loginSecret).2 } = .error e →
          (createAWSCreds w r saml).result = (none, "", some e)) ∧
        (∀ samlAssertion, w.authenticate provider
              { Username := account.Username, URL := account.URL,
                Password := (getLoginData loginSecret).2 } = .ok samlAssertion →
          (createAWSCreds w r saml).result =
            match (getCredentials w samlAssertion account.RoleARN account).result with
            | .error err => (none, "", some err)
            | .ok awsCreds => (some awsCreds, "saml", none)))) := by
  have hu : (getLoginData loginSecret).1 = mapIndex loginSecret.Data userKey := rfl
  have hp : (getLoginData loginSecret).2 = mapIndex loginSecret.Data passKey := rfl
  have hu0 : loginSecret.Data.lookup userKey = none → mapIndex loginSecret.Data userKey = "" := by
    intro h; simp only [mapIndex, h]
  have hp0 : loginSecret.Data.lookup passKey = none → mapIndex loginSecret.Data passKey = "" := by
    intro h; simp only [mapIndex, h]
  rw [hu, hp]
  refine ⟨hu0, hp0, ?_, ?_⟩
  · intro e hfa
    have hdur := formatAccount_error _ _ _ _ _ hfa
    rw [createAWSCreds_duration_error w r saml loginSecret e hget hdur]
  · intro account hfa
    have hname : account.Username = mapIndex loginSecret.Data userKey := by
      have h := hfa
      simp only [formatAccount] at h
      split at h
      · simp at h
      · simp only [Except.ok.injEq] at h
        rw [← h]
    have hprofile := (formatAccount_ok _ _ _ _ _ hfa).2
    refine ⟨hname, fun h => hname.trans (hu0 h), ?_, ?_, ?_⟩
    · cases hnew : w.adfsNew account with
      | error e =>
        rw [createAWSCreds_adfs_error w r saml loginSecret account e hget hfa hnew]
        simp
      | ok provider =>
        rw [createAWSCreds_provider w r saml loginSecret account provider hget hfa hnew]
        cases w.authenticate provider
            { Username := account.Username, URL := account.URL,
              Password := mapIndex loginSecret.Data passKey } <;> simp
    · intro e hnew
      rw [createAWSCreds_adfs_error w r saml loginSecret account e hget hfa hnew]
    · intro provider hnew
      have hmem : Call.authenticate provider
            { Username := account.Username, URL := account.URL,
              Password := mapIndex loginSecret.Data passKey } ∈
          (createAWSCreds w r saml).calls := by
        rw [createAWSCreds_provider w r saml loginSecret account provider hget hfa hnew]
        cases w.authenticate provider
            { Username := account.Username, URL := account.URL,
              Password := mapIndex loginSecret.Data passKey } <;> simp
      refine ⟨hmem, ?_, ?_, ?_⟩
      · intro h
        rw [hp0 h] at hmem
        exact hmem
      · intro e hauth
        rw [createAWSCreds_provider w r saml loginSecret account provider hget hfa hnew, hauth]
      · intro samlAssertion hauth
        rw [createAWSCreds_provider w r saml loginSecret account provider hget hfa hnew, hauth,
          hprofile]

/-- C2, sample: the login secret of `noPasswordWorld` has the key `username`
only, and the authenticator is called with the empty password; the login
secret of `noUsernameWorld` has the key `password` only, and the provider is
constructed and the authenticator called with the empty user name. -/
theorem createAWSCreds_missing_login_field_witness :
    Call.authenticate { account := sampleAccount }
        { Username := "alice", URL := "https://idp.example", Password := "" } ∈
      (createAWSCreds noPasswordWorld sampleReconciler sampleSaml).calls ∧
    Call.adfsNew { sampleAccount with Username := "" } ∈
      (createAWSCreds noUsernameWorld sampleReconciler sampleSaml).calls ∧
    Call.authenticate { account := { sampleAccount with Username := "" } }
        { Username := "", URL := "https://idp.example", Password := "s3cret" } ∈
      (createAWSCreds noUsernameWorld sampleReconciler sampleSaml).calls :=
  ⟨((createAWSCreds_missing_login_field noPasswordWorld sampleReconciler sampleSaml
      { Name := "login", Namespace := "default", OwnerReferences := [],
        Data := [("username", "alice")] } rfl).2.2.2
      sampleAccount (by decide)).2.2.2.2 { account := sampleAccount } rfl |>.2.1 (by decide),
   ((createAWSCreds_missing_login_field noUsernameWorld sampleReconciler sampleSaml
      { Name := "login", Namespace := "default", OwnerReferences := [],
        Data := [("password", "s3cret")] } rfl).2.2.2
      { sampleAccount with Username := "" } (by decide)).2.2.1,
   ((createAWSCreds_missing_login_field noUsernameWorld sampleReconciler sampleSaml
      { Name := "login", Namespace := "default", OwnerReferences := [],
        Data := [("password", "s3cret")] } rfl).2.2.2
      { sampleAccount with Username := "" } (by decide)).2.2.2.2
      { account := { sampleAccount with Username := "" } } rfl |>.1⟩

/-- C2, refuted as stated: a login secret without a `password` key, and
likewise one without a `username` key, makes `createAWSCreds` neither fail nor
stop: it authenticates with the empty password (the empty user name), runs the
STS exchange and returns credentials. -/
theorem createAWSCreds_no_password_succeeds :
    (noPasswordWorld.get sampleSaml.Spec.SecretName sampleSaml.Namespace =
      .ok { Name := "login", Namespace := "default", OwnerReferences := [],
            Data := [("username", "alice")] }) ∧
    ([("username", "alice")] : List (String × String)).lookup passKey = none ∧
    (createAWSCreds noPasswordWorld sampleReconciler sampleSaml).result.2.2 = none ∧
    (createAWSCreds noPasswordWorld sampleReconciler sampleSaml).result.1 =
      some { AWSAccessKey := "AK1", AWSSecretKey := "SK1", AWSSessionToken := "TOK1",
             AWSSecurityToken := "TOK1",
             PrincipalARN := "arn:aws:sts::111:assumed-role/Dev/alice",
             Expires := { instant := 1700000000, loc := Location.localZone },
             Region := "eu-west-1" } ∧
    Call.authenticate { account := sampleAccount }
        { Username := "alice", URL := "https://idp.example", Password := "" } ∈
      (createAWSCreds noPasswordWorld sampleReconciler sampleSaml).calls ∧
    (createAWSCreds noPasswordWorld sampleReconciler sampleSaml).calls.any
      Call.isStsExchange = true ∧
    (noUsernameWorld.get sampleSaml.Spec.SecretName sampleSaml.Namespace =
      .ok { Name := "login", Namespace := "default", OwnerReferences := [],
            Data := [("password", "s3cret")] }) ∧
    ([("password", "s3cret")] : List (String × String)).lookup userKey = none ∧
    (createAWSCreds noUsernameWorld sampleReconciler sampleSaml).result.2.2 = none ∧
    (createAWSCreds noUsernameWorld sampleReconciler sampleSaml).result.1 =
      some { AWSAccessKey := "AK1", AWSSecretKey := "SK1", AWSSessionToken := "TOK1",
             AWSSecurityToken := "TOK1",
             PrincipalARN := "arn:aws:sts::111:assumed-role/Dev/alice",
             Expires := { instant := 1700000000, loc := Location.localZone },
             Region := "eu-west-1" } ∧
    Call.authenticate { account := { sampleAccount with Username := "" } }
        { Username := "", URL := "https://idp.example", Password := "s3cret" } ∈
      (createAWSCreds noUsernameWorld sampleReconciler sampleSaml).calls ∧
    (createAWSCreds noUsernameWorld sampleReconciler sampleSaml).calls.any
      Call.isStsExchange = true := by
  refine ⟨rfl, by decide, by decide, by decide, by decide, by decide,
    rfl, by decide, by decide, by decide, by decide, by decide⟩

/-- C10, as the code behaves: with a malformed session-duration string the
login secret is looked up first; if that lookup fails its error is returned,
and otherwise `createAWSCreds` returns the parse error with no credentials
after exactly two calls, the secret lookup and the duration parse: neither
the authentication nor the STS exchange is invoked. -/
theorem createAWSCreds_malformed_duration (w : World) (r : Saml2AwsReconciler)
    (saml : Saml2Aws) (e : GoError)
    (hdur : w.parseDuration r.Config.SessionDuration = .error e) :
    (∀ e1, w.get saml.Spec.SecretName saml.Namespace = .error e1 →
      (createAWSCreds w r saml).result = (none, "", some e1) ∧
      (createAWSCreds w r saml).calls =
        [Call.readSecret saml.Spec.SecretName saml.Namespace]) ∧
    (∀ loginSecret, w.get saml.Spec.SecretName saml.Namespace = .ok loginSecret →
      (createAWSCreds w r saml).result = (none, "", some e) ∧
      (createAWSCreds w r saml).calls =
        [Call.readSecret saml.Spec.SecretName saml.Namespace,
          Call.parseDuration r.Config.SessionDuration]) ∧
    (∀ c ∈ (createAWSCreds w r saml).calls,
      c.isAuthenticate = false ∧ c.isStsExchange = false) := by
  refine ⟨?_, ?_, ?_⟩
  · intro e1 hget
    rw [createAWSCreds_get_error w r saml e1 hget]
    exact ⟨rfl, rfl⟩
  · intro loginSecret hget
    rw [createAWSCreds_duration_error w r saml loginSecret e hget hdur]
    exact ⟨rfl, rfl⟩
  · intro c hc
    cases hget : w.get saml.Spec.SecretName saml.Namespace with
    | error e1 =>
      rw [createAWSCreds_get_error w r saml e1 hget] at hc
      rw [List.mem_singleton.1 hc]
      exact ⟨rfl, rfl⟩
    | ok loginSecret =>
      rw [createAWSCreds_duration_error w r saml loginSecret e hget hdur] at hc
      simp only [List.mem_cons, List.mem_singleton, List.not_mem_nil, or_false] at hc
      rcases hc with rfl | rfl <;> exact ⟨rfl, rfl⟩

/-- C10, sample: the duration `bogus` in the sample world. -/
theorem createAWSCreds_malformed_duration_witness :
    (createAWSCreds sampleWorld bogusReconciler sampleSaml).result =
      (none, "", some (GoError.lib "time: invalid duration")) ∧
    (createAWSCreds sampleWorld bogusReconciler sampleSaml).calls =
      [Call.readSecret "login" "default", Call.parseDuration "bogus"] :=
  (createAWSCreds_malformed_duration sampleWorld bogusReconciler sampleSaml
    (GoError.lib "time: invalid duration") (by decide)).2.1 sampleLoginSecret (by decide)

/-- C10, refuted as stated: with the malformed duration `bogus` the
login-secret lookup is invoked, and it is invoked before the duration is
parsed. -/
theorem createAWSCreds_reads_secret_before_duration :
    sampleWorld.parseDuration bogusReconciler.Config.SessionDuration =
      .error (GoError.lib "time: invalid duration") ∧
    Call.readSecret "login" "default" ∈
      (createAWSCreds sampleWorld bogusReconciler sampleSaml).calls ∧
    (createAWSCreds sampleWorld bogusReconciler sampleSaml).calls.head? =
      some (Call.readSecret "login" "default") := by
  refine ⟨by decide, by decide, by decide⟩

theorem log2Aux_spec (fuel : Nat) : ∀ n, n ≤ fuel → 1 ≤ n →
    2 ^ log2Aux fuel n ≤ n ∧ n < 2 ^ (log2Aux fuel n + 1) := by
  induction fuel with
  | zero => intro n h0 h1; omega
  | succ fuel ih =>
    intro n hn h1
    by_cases h2 : n < 2
    · have : n = 1 := by omega
      subst this
      simp [log2Aux]
    · simp only [log2Aux, h2, if_false]
      have hle : n / 2 ≤ fuel := by omega
      have hpos : 1 ≤ n / 2 := by omega
      obtain ⟨ha, hb⟩ := ih (n / 2) hle hpos
      constructor
      · rw [pow_succ]; omega
      · rw [pow_succ]; omega

theorem natLog2_spec (n : Nat) (h : 1 ≤ n) :
    2 ^ natLog2 n ≤ n ∧ n < 2 ^ (natLog2 n + 1) :=
  log2Aux_spec n n (le_refl n) h

/-- The logarithm `floorLog2 p q` is below `j` when `p / q` is below `2 ^ j`. -/
theorem floorLog2_lt (p q j : Nat) (hp : 1 ≤ p) (hq : 1 ≤ q) (h : p < q * 2 ^ j) :
    floorLog2 p q < (j : Int) := by
  obtain ⟨hp1, -⟩ := natLog2_spec p hp
  obtain ⟨-, hq2⟩ := natLog2_spec q hq
  have h1 : 2 ^ natLog2 p < 2 ^ (natLog2 q + 1 + j) := by
    calc 2 ^ natLog2 p ≤ p := hp1
      _ < q * 2 ^ j := h
      _ ≤ 2 ^ (natLog2 q + 1) * 2 ^ j := Nat.mul_le_mul_right _ (le_of_lt hq2)
      _ = 2 ^ (natLog2 q + 1 + j) := (pow_add 2 _ j).symm
  have h2 : natLog2 p < natLog2 q + 1 + j := (Nat.pow_lt_pow_iff_right (by norm_num)).1 h1
  simp only [floorLog2]
  split
  next hc =>
    by_contra hne
    have hk : (natLog2 p : Int) - (natLog2 q : Int) = (j : Int) := by omega
    rw [hk] at hc
    simp only [Int.toNat_ofNat, Int.toNat_neg_nat, pow_zero, mul_one] at hc
    omega
  next hc => omega

theorem roundHalfEven_one (p : Nat) : roundHalfEven p 1 = p := by
  simp [roundHalfEven, Nat.mod_one]

theorem roundHalfEven_ge (p q M : Nat) (hq : 0 < q) (h : M * q ≤ p) :
    M ≤ roundHalfEven p q := by
  have hm : M ≤ p / q := (Nat.le_div_iff_mul_le hq).2 h
  simp only [roundHalfEven]
  split
  · exact hm
  · split
    · omega
    · split <;> omega

theorem roundHalfEven_lt (p q M : Nat) (hq : 0 < q) (h : 2 * p + q < 2 * M * q) :
    roundHalfEven p q < M := by
  have hdm := Nat.div_add_mod p q
  have hr : p % q < q := Nat.mod_lt p hq
  generalize hm : p / q = m at hdm
  generalize hrr : p % q = r at hdm hr
  simp only [roundHalfEven, hm, hrr]
  have key1 : 2 * r < q → m < M := by
    intro h2
    by_contra hc
    have hc1 : M ≤ m := by omega
    have := Nat.mul_le_mul_right q hc1
    nlinarith
  have key2 : q ≤ 2 * r → m + 1 < M := by
    intro h2
    by_contra hc
    have hc1 : M ≤ m + 1 := by omega
    have := Nat.mul_le_mul_right q hc1
    nlinarith
  split
  next h2 => exact key1 h2
  next h2 =>
    have := key2 (by omega)
    split
    · exact this
    · split <;> omega

theorem roundHalfEven_half (p q : Nat) (hq : 0 < q) :
    2 * roundHalfEven p q * q ≤ 2 * p + q := by
  have hdm := Nat.div_add_mod p q
  have hr : p % q < q := Nat.mod_lt p hq
  generalize hm : p / q = m at hdm
  generalize hrr : p % q = r at hdm hr
  simp only [roundHalfEven, hm, hrr]
  have e0 : 2 * m * q = 2 * (q * m) := by ring
  have e1 : 2 * (m + 1) * q = 2 * (q * m) + 2 * q := by ring
  split
  · omega
  · split
    · omega
    · split <;> omega

/-- Rounding `p / q` below `2 ^ j`, for `j` at most 52: the result has a
negative exponent `-t` with `53 ≤ t + j`, and its mantissa is `p * 2 ^ t / q`
rounded to the nearest integer. -/
theorem roundMag_of_lt (p q j : Nat) (hp : p ≠ 0) (hq : 1 ≤ q) (h : p < q * 2 ^ j)
    (hj : j ≤ 52) :
    ∃ t, 53 ≤ t + j ∧ roundMag p q = ⟨(roundHalfEven (p * 2 ^ t) q : Nat), t⟩ := by
  have hk := floorLog2_lt p q j (by omega) hq h
  simp only [roundMag, hp, if_false]
  generalize floorLog2 p q = k at hk
  have he : ¬ (0 ≤ max (k - 52) (-1074)) := by omega
  simp only [he, if_false]
  exact ⟨(-max (k - 52) (-1074)).toNat, by omega, rfl⟩

theorem roundMag_zero (q : Nat) : roundMag 0 q = ⟨0, 0⟩ := by
  simp [roundMag]

theorem roundF64_natCast (n d : Nat) : roundF64 (n : Int) d = roundMag n d := by
  have : ¬ ((n : Int) < 0) := by omega
  simp only [roundF64, this, if_false, Int.natAbs_ofNat]

/-- An integer below `2 ^ 52` converts to binary64 without rounding. -/
theorem ofInt_natCast (i : Nat) (hi : i < 2 ^ 52) :
    ∃ s, Float64.ofInt (i : Int) = ⟨((i * 2 ^ s : Nat) : Int), s⟩ := by
  by_cases h0 : i = 0
  · subst h0
    exact ⟨0, by decide⟩
  · obtain ⟨t, -, ht⟩ := roundMag_of_lt i 1 52 h0 (le_refl 1) (by omega) (le_refl 52)
    refine ⟨t, ?_⟩
    rw [Float64.ofInt, roundF64_natCast, ht, roundHalfEven_one]

theorem ofInt_billion : Float64.ofInt 1000000000 = ⟨8388608000000000, 23⟩ := by decide

/-- The fraction `float64(nsec) / 1e9` of `Duration.Seconds`, for
`0 ≤ nsec < 10 ^ 9`, is a binary64 value `m / 2 ^ s` at most
`1 - 17 / 2 ^ 34`. -/
theorem fraction_bound (nsec : Nat) (h : nsec < 1000000000) :
    ∃ m s : Nat, (Float64.ofInt (nsec : Int)).div (Float64.ofInt 1000000000) = ⟨(m : Int), s⟩ ∧
      2 ^ 34 * m ≤ (2 ^ 34 - 17) * 2 ^ s := by
  obtain ⟨s1, hs1⟩ := ofInt_natCast nsec (by omega)
  rw [hs1, ofInt_billion]
  have hnum : (((nsec * 2 ^ s1 : Nat) : Int) * 2 ^ 23 * (8388608000000000 : Int).sign) =
      ((nsec * 2 ^ s1 * 2 ^ 23 : Nat) : Int) := by
    have : (8388608000000000 : Int).sign = 1 := by decide
    rw [this]; push_cast; ring
  have hden : (8388608000000000 : Int).natAbs = 8388608000000000 := by decide
  simp only [Float64.div, hnum, hden, roundF64_natCast]
  by_cases h0 : nsec = 0
  · subst h0
    refine ⟨0, 0, ?_, by norm_num⟩
    simp [roundMag_zero]
  · have hA : 0 < 2 ^ s1 := Nat.two_pow_pos s1
    have hpos : nsec * 2 ^ s1 * 2 ^ 23 ≠ 0 := by positivity
    have hq : 1 ≤ 2 ^ s1 * 8388608000000000 := Nat.mul_pos hA (by norm_num)
    have hlt : nsec * 2 ^ s1 * 2 ^ 23 < 2 ^ s1 * 8388608000000000 * 2 ^ 0 := by
      nlinarith
    obtain ⟨t, ht53, ht⟩ := roundMag_of_lt _ _ 0 hpos hq hlt (by norm_num)
    refine ⟨_, t, by rw [ht], ?_⟩
    have hhalf := roundHalfEven_half (nsec * 2 ^ s1 * 2 ^ 23 * 2 ^ t)
      (2 ^ s1 * 8388608000000000) (by omega)
    generalize roundHalfEven (nsec * 2 ^ s1 * 2 ^ 23 * 2 ^ t)
      (2 ^ s1 * 8388608000000000) = m at hhalf
    have hT : 2 ^ 53 ≤ 2 ^ t := Nat.pow_le_pow_right (by norm_num) (by omega)
    generalize 2 ^ t = T at hhalf hT
    generalize 2 ^ s1 = A at hhalf hA
    -- 2 * m * (A * c) ≤ 2 * (nsec * A * 2^23 * T) + A * c, with c = 10^9 * 2^23
    have h1 : A * (2 * m * 1000000000) ≤ A * (2 * nsec * T + 1000000000) := by
      nlinarith
    have h2 := Nat.le_of_mul_le_mul_left h1 hA
    have h3 : nsec * T ≤ 999999999 * T := Nat.mul_le_mul_right T (by omega)
    norm_num at hT ⊢
    nlinarith

/-- Adding a fraction `m / 2 ^ s` at most `1 - 17 / 2 ^ 34` to an integer
`sec` below `2 ^ 24` and converting the binary64 sum to an integer gives
`sec` back. -/
theorem add_fraction_toInt (sec m s : Nat) (hsec : sec < 2 ^ 24)
    (hm : 2 ^ 34 * m ≤ (2 ^ 34 - 17) * 2 ^ s) :
    ((Float64.ofInt (sec : Int)).add ⟨(m : Int), s⟩).toInt = (sec : Int) := by
  obtain ⟨s0, hs0⟩ := ofInt_natCast sec (by omega)
  rw [hs0]
  have hnum : ((sec * 2 ^ s0 : Nat) : Int) * 2 ^ s + (m : Int) * 2 ^ s0 =
      ((sec * 2 ^ s0 * 2 ^ s + m * 2 ^ s0 : Nat) : Int) := by
    push_cast; ring
  simp only [Float64.add, hnum, roundF64_natCast]
  have hA : 0 < 2 ^ s0 := Nat.two_pow_pos s0
  have hS : 0 < 2 ^ s := Nat.two_pow_pos s
  have hD : 2 ^ (s0 + s) = 2 ^ s0 * 2 ^ s := pow_add 2 s0 s
  rw [hD]
  by_cases h0 : sec * 2 ^ s0 * 2 ^ s + m * 2 ^ s0 = 0
  · have hsec0 : sec = 0 := by
      by_contra hne
      have : 0 < sec * 2 ^ s0 * 2 ^ s := by positivity
      omega
    rw [h0, roundMag_zero, hsec0]
    decide
  · have hmS : m < 2 ^ s := by
      norm_num at hm ⊢
      omega
    have hlt : sec * 2 ^ s0 * 2 ^ s + m * 2 ^ s0 < 2 ^ s0 * 2 ^ s * 2 ^ 24 := by
      have h1 : sec + 1 ≤ 2 ^ 24 := hsec
      have h2 : m * 2 ^ s0 < 2 ^ s * 2 ^ s0 := Nat.mul_lt_mul_of_pos_right hmS hA
      have h3 := Nat.mul_le_mul_right (2 ^ s0 * 2 ^ s) h1
      nlinarith
    obtain ⟨t, ht29, ht⟩ := roundMag_of_lt _ _ 24 h0 (Nat.mul_pos hA hS) hlt (by norm_num)
    rw [ht]
    have hT : 2 ^ 29 ≤ 2 ^ t := Nat.pow_le_pow_right (by norm_num) (by omega)
    have hTpos : 0 < 2 ^ t := Nat.two_pow_pos t
    have hlow := roundHalfEven_ge ((sec * 2 ^ s0 * 2 ^ s + m * 2 ^ s0) * 2 ^ t)
      (2 ^ s0 * 2 ^ s) (sec * 2 ^ t) (Nat.mul_pos hA hS) (by
        have : 0 ≤ m * 2 ^ s0 * 2 ^ t := Nat.zero_le _
        nlinarith)
    have hup := roundHalfEven_lt ((sec * 2 ^ s0 * 2 ^ s + m * 2 ^ s0) * 2 ^ t)
      (2 ^ s0 * 2 ^ s) ((sec + 1) * 2 ^ t) (Nat.mul_pos hA hS) (by
        generalize 2 ^ t = T at hT hTpos
        generalize 2 ^ s = S at hm hS
        generalize 2 ^ s0 = A at hA
        have h1 : 2 ^ 34 * (m * T) ≤ (2 ^ 34 - 17) * (S * T) := by
          have := Nat.mul_le_mul_right T hm
          nlinarith
        have h2 : 2 ^ 29 * S ≤ S * T := by nlinarith
        have h3 : 2 * (m * T) + S < 2 * (S * T) := by
          norm_num at h1 h2 ⊢
          omega
        have h4 : A * (2 * (m * T) + S) < A * (2 * (S * T)) :=
          Nat.mul_lt_mul_of_pos_left h3 hA
        nlinarith)
    generalize roundHalfEven ((sec * 2 ^ s0 * 2 ^ s + m * 2 ^ s0) * 2 ^ t)
      (2 ^ s0 * 2 ^ s) = r at hlow hup
    simp only [Float64.toInt]
    have hdiv : r / 2 ^ t = sec := by
      apply Nat.div_eq_of_lt_le
      · exact hlow
      · exact hup
    have hc : ((2 : Int) ^ t) = ((2 ^ t : Nat) : Int) := by push_cast; rfl
    rw [hc, ← Int.ofNat_tdiv, hdiv]

theorem seconds_toInt_natCast (D : Nat) (h : D < 16777216000000000) :
    (Duration.Seconds (D : Int)).toInt = (D : Int).tdiv Second := by
  have hsec : (D : Int).tdiv Second = ((D / 1000000000 : Nat) : Int) := by
    rw [Int.ofNat_tdiv]; rfl
  have hnsec : (D : Int).tmod Second = ((D % 1000000000 : Nat) : Int) := by
    rw [Int.ofNat_tmod]; rfl
  obtain ⟨m, s, hf, hm⟩ := fraction_bound (D % 1000000000) (Nat.mod_lt _ (by norm_num))
  simp only [Duration.Seconds, hsec, hnsec, hf]
  exact add_fraction_toInt (D / 1000000000) m s (by omega) hm

theorem Float64.neg_neg (x : Float64) : x.neg.neg = x := by
  cases x; simp [Float64.neg]

theorem roundF64_neg (n : Int) (d : Nat) : roundF64 (-n) d = (roundF64 n d).neg := by
  rcases lt_trichotomy n 0 with hn | hn | hn
  · have h1 : ¬ (-n < 0) := by omega
    simp only [roundF64, h1, hn, if_true, if_false, Int.natAbs_neg, Float64.neg_neg]
  · subst hn
    simp [roundF64, roundMag_zero, Float64.neg]
  · have h1 : -n < 0 := by omega
    have h2 : ¬ (n < 0) := by omega
    simp only [roundF64, h1, h2, if_true, if_false, Int.natAbs_neg]

theorem Float64.toInt_neg (x : Float64) : x.neg.toInt = -x.toInt := by
  simp only [Float64.toInt, Float64.neg, Int.neg_tdiv]

theorem neg_tmod_eq (a b : Int) : (-a).tmod b = -(a.tmod b) := by
  rw [Int.tmod_def, Int.tmod_def, Int.neg_tdiv]; ring

theorem Float64.neg_div (b c : Float64) : b.neg.div c = (b.div c).neg := by
  have h : (-b.mant) * 2 ^ c.scale * c.mant.sign = -(b.mant * 2 ^ c.scale * c.mant.sign) := by
    ring
  show roundF64 ((-b.mant) * 2 ^ c.scale * c.mant.sign) (2 ^ b.scale * c.mant.natAbs) =
    (roundF64 (b.mant * 2 ^ c.scale * c.mant.sign) (2 ^ b.scale * c.mant.natAbs)).neg
  rw [h, roundF64_neg]

theorem Float64.neg_add_neg (a q : Float64) : a.neg.add q.neg = (a.add q).neg := by
  have h : (-a.mant) * 2 ^ q.scale + (-q.mant) * 2 ^ a.scale =
      -(a.mant * 2 ^ q.scale + q.mant * 2 ^ a.scale) := by
    ring
  show roundF64 ((-a.mant) * 2 ^ q.scale + (-q.mant) * 2 ^ a.scale) (2 ^ (a.scale + q.scale)) =
    (roundF64 (a.mant * 2 ^ q.scale + q.mant * 2 ^ a.scale) (2 ^ (a.scale + q.scale))).neg
  rw [h, roundF64_neg]

theorem seconds_neg (d : Int) : Duration.Seconds (-d) = (Duration.Seconds d).neg := by
  simp only [Duration.Seconds, Int.neg_tdiv, neg_tmod_eq, Float64.ofInt, roundF64_neg,
    Float64.neg_div, Float64.neg_add_neg]

/-- For a duration of less than `2 ^ 24` seconds in absolute value,
`int(d.Seconds())` is `d` in nanoseconds divided by `10 ^ 9`, truncated toward
zero. -/
theorem seconds_toInt (d : Int) (hlo : -16777216000000000 < d) (hhi : d < 16777216000000000) :
    (Duration.Seconds d).toInt = d.tdiv Second := by
  rcases le_or_lt 0 d with hd | hd
  · obtain ⟨D, rfl⟩ := Int.eq_ofNat_of_zero_le hd
    exact seconds_toInt_natCast D (by omega)
  · obtain ⟨D, hD⟩ := Int.eq_ofNat_of_zero_le (show 0 ≤ -d by omega)
    have hd2 : d = -(D : Int) := by omega
    rw [hd2, seconds_neg, Float64.toInt_neg, seconds_toInt_natCast D (by omega), Int.neg_tdiv]

/-- C3, as the code behaves: when the session-duration string parses to a
duration `d` of less than `2 ^ 24` seconds in absolute value (about 194
days), `formatAccount` returns a descriptor whose `SessionDuration` is `d` in
nanoseconds divided by `10 ^ 9`, truncated toward zero. -/
theorem formatAccount_sessionDuration (w : World) (config : Config) (login role : String)
    (d : Int) (hparse : w.parseDuration config.SessionDuration = .ok d)
    (hlo : -16777216000000000 < d) (hhi : d < 16777216000000000) :
    ∃ account, (formatAccount w config login role).result = .ok account ∧
      account.SessionDuration = d.tdiv 1000000000 := by
  simp only [formatAccount, hparse]
  exact ⟨_, rfl, seconds_toInt d hlo hhi⟩

/-- C3, sample: `1h` gives 3600 seconds and `1500ms` gives 1 second. -/
theorem formatAccount_sessionDuration_witness :
    ((3600000000000 : Int).tdiv 1000000000 = 3600 ∧
      ∃ account, (formatAccount sampleWorld sampleConfig "alice" "A").result = .ok account ∧
        account.SessionDuration = (3600000000000 : Int).tdiv 1000000000) ∧
    ((1500000000 : Int).tdiv 1000000000 = 1 ∧
      ∃ account, (formatAccount sampleWorld millisConfig "alice" "A").result = .ok account ∧
        account.SessionDuration = (1500000000 : Int).tdiv 1000000000) :=
  ⟨⟨by decide, formatAccount_sessionDuration sampleWorld sampleConfig "alice" "A"
      3600000000000 (by decide) (by decide) (by decide)⟩,
   ⟨by decide, formatAccount_sessionDuration sampleWorld millisConfig "alice" "A"
      1500000000 (by decide) (by decide) (by decide)⟩⟩

/-- C3, refuted as stated: a duration of `2 ^ 24` seconds and `999999999`
nanoseconds truncates to `16777216` whole seconds, but the binary64 sum
`float64(16777216) + float64(999999999)/1e9` rounds to `16777217`, which is the
`SessionDuration` that `formatAccount` returns. -/
theorem formatAccount_sessionDuration_rounds_up :
    longDurationWorld.parseDuration longDurationConfig.SessionDuration =
      .ok 16777216999999999 ∧
    (16777216999999999 : Int).tdiv 1000000000 = 16777216 ∧
    (formatAccount longDurationWorld longDurationConfig "alice" "A").result =
      .ok { URL := "https://idp.example", Username := "alice", MFA := "Azure",
            Provider := "ADFS", SkipVerify := false, Region := "eu-west-1", RoleARN := "A",
            SessionDuration := 16777217, Profile := "saml",
            AmazonWebservicesURN := "urn:amazon:webservices" } := by
  refine ⟨by decide, by decide, by decide⟩

end Samlet
